import Mathlib

/-!
Verification of the hiring-framework wizard front end.

This file is a shallow embedding of `webapp/src/app/page.tsx`: the React
component's state hooks become the fields of `AppState`, each request
handler (`uploadJD`, `evaluateResume`, `analyzeGitHub`,
`generateFinalVerdict`, `downloadPDF`, the inline "Evaluate Another
Candidate" and "Start Over" click handlers) becomes a pure state
transformer parameterised by the outcome of its network call, and the
render/`disabled` guards of the buttons become boolean predicates.  A
small-step semantics (`applyAct` / `runActs`) fires a control only when
the corresponding element is rendered and enabled, which lets us reason
about every state reachable from the initial render.

Numbers held in component state (scores, thresholds) are modelled as `ℚ`.
-/

/-- Pass thresholds for levels 1-3, the shape of the `thresholds` state
hook (`useState({ level_1: 7.0, level_2: 6.0, level_3: 8.0 })`). -/
structure Thresholds where
  level_1 : ℚ
  level_2 : ℚ
  level_3 : ℚ
deriving DecidableEq

/-- Payload of a successful resume-evaluation response
(`res.data.data` of `/api/v1/resume/evaluate-text` / `evaluate-file`),
with the fields the component reads: `score`, `max_score`, `passed`,
`threshold`, the narrative `evaluation`, and the optional auto-detected
`github_url`. -/
structure EvalData where
  score : ℚ
  max_score : ℚ
  passed : Bool
  threshold : ℚ
  evaluation : String
  github_url : Option String
deriving DecidableEq

/-- Payload of a successful GitHub-analysis response
(`res.data.data` of `/api/v1/github/analyze`). -/
structure GithubData where
  github_url : String
  score : ℚ
  max_score : ℚ
  passed : Bool
  threshold : ℚ
  analysis : String
deriving DecidableEq

/-- Payload of a successful verdict-generation response
(`res.data.data` of `/api/v1/verdict/generate`). -/
structure VerdictData where
  decision : String
  confidence : String
  composite_score : ℚ
  level_1_score : ℚ
  level_2_score : ℚ
  level_3_score : Option ℚ
  verdict_text : String
deriving DecidableEq

/-- The component state: one field per `useState` hook of `Home` that
participates in the evaluation workflow (`darkMode`/`showSettings` and
the file-input refs are pure presentation and omitted). -/
structure AppState where
  step : Nat
  jdText : String
  rubric : String
  resumeText : String
  evaluation : Option EvalData
  githubUrl : String
  githubAnalysis : Option GithubData
  finalVerdict : Option VerdictData
  loading : Bool
  error : String
  thresholds : Thresholds
deriving DecidableEq

/-- The initial render: `useState(1)`, empty strings, `null` artifacts,
`loading = false`, and default thresholds `7.0 / 6.0 / 8.0`. -/
def initState : AppState :=
  { step := 1
    jdText := ""
    rubric := ""
    resumeText := ""
    evaluation := none
    githubUrl := ""
    githubAnalysis := none
    finalVerdict := none
    loading := false
    error := ""
    thresholds := { level_1 := 7, level_2 := 6, level_3 := 8 } }

/-- `uploadJD`: posts the JD text then generates the rubric.  On success
(`result = ok rubric`) it stores the rubric and moves to step 2; if
either request fails the `catch` block only records the error message.
`setLoading(true)`/`setError('')` run first and `setLoading(false)`
last, so the settled state has `loading = false`. -/
def uploadJD (s : AppState) (result : Except String String) : AppState :=
  match result with
  | Except.ok r => { s with error := "", rubric := r, step := 2, loading := false }
  | Except.error e => { s with error := e, loading := false }

/-- `uploadJDFile`: same settled effect as `uploadJD`, triggered from the
hidden file input instead of the textarea. -/
def uploadJDFile (s : AppState) (result : Except String String) : AppState :=
  match result with
  | Except.ok r => { s with error := "", rubric := r, step := 2, loading := false }
  | Except.error e => { s with error := e, loading := false }

/-- `evaluateResume`: on success stores the evaluation artifact,
auto-fills `githubUrl` when the response carries a truthy `github_url`,
and always proceeds to step 3 (the comment in the source reads "Always
proceed to GitHub analysis for comprehensive evaluation").  On failure
only the error message is recorded. -/
def evaluateResume (s : AppState) (result : Except String EvalData) : AppState :=
  match result with
  | Except.ok d =>
      { s with
        error := ""
        evaluation := some d
        githubUrl :=
          match d.github_url with
          | some u => if u = "" then s.githubUrl else u
          | none => s.githubUrl
        step := 3
        loading := false }
  | Except.error e => { s with error := e, loading := false }

/-- `evaluateResumeFile`: same settled effect as `evaluateResume`. -/
def evaluateResumeFile (s : AppState) (result : Except String EvalData) : AppState :=
  match result with
  | Except.ok d =>
      { s with
        error := ""
        evaluation := some d
        githubUrl :=
          match d.github_url with
          | some u => if u = "" then s.githubUrl else u
          | none => s.githubUrl
        step := 3
        loading := false }
  | Except.error e => { s with error := e, loading := false }

/-- `analyzeGitHub`: on success stores the GitHub analysis and moves to
the results view (step 4); on failure only records the error. -/
def analyzeGitHub (s : AppState) (result : Except String GithubData) : AppState :=
  match result with
  | Except.ok d => { s with error := "", githubAnalysis := some d, step := 4, loading := false }
  | Except.error e => { s with error := e, loading := false }

/-- `generateFinalVerdict`: on success stores the verdict and moves to
the verdict view (step 5); on failure only records the error. -/
def generateFinalVerdict (s : AppState) (result : Except String VerdictData) : AppState :=
  match result with
  | Except.ok v => { s with error := "", finalVerdict := some v, step := 5, loading := false }
  | Except.error e => { s with error := e, loading := false }

/-- `downloadPDF`: fetches `/api/v1/export/pdf` and triggers a browser
download.  It touches no component state on success and only sets the
error message on failure (it does not toggle `loading`). -/
def downloadPDF (s : AppState) (result : Except String Unit) : AppState :=
  match result with
  | Except.ok _ => s
  | Except.error e => { s with error := e }

/-- The inline `onClick` of the "Evaluate Another Candidate" buttons
(steps 4 and 5): back to step 2, clearing only the candidate-specific
state (`resumeText`, `githubUrl`, `evaluation`, `githubAnalysis`,
`finalVerdict`) while keeping the JD and rubric. -/
def evaluateAnotherCandidate (s : AppState) : AppState :=
  { s with
    step := 2
    resumeText := ""
    githubUrl := ""
    evaluation := none
    githubAnalysis := none
    finalVerdict := none }

/-- The inline `onClick` of the "Start Over" buttons (steps 4 and 5):
back to step 1 with every workflow field cleared. -/
def startOver (s : AppState) : AppState :=
  { s with
    step := 1
    jdText := ""
    rubric := ""
    resumeText := ""
    githubUrl := ""
    evaluation := none
    githubAnalysis := none
    finalVerdict := none }

/-- "Process Text" button: rendered in the step-1 block, with
`disabled = !jdText or loading`. -/
def processTextEnabled (s : AppState) : Bool :=
  s.step == 1 && !(s.jdText == "") && !s.loading

/-- JD "Upload File" button: rendered in the step-1 block, with
`disabled = loading`. -/
def uploadJDFileEnabled (s : AppState) : Bool :=
  s.step == 1 && !s.loading

/-- "Evaluate Text" button: rendered in the step-2 block, with
`disabled = !resumeText or loading`. -/
def evaluateTextEnabled (s : AppState) : Bool :=
  s.step == 2 && !(s.resumeText == "") && !s.loading

/-- Resume "Upload File" button: rendered in the step-2 block, with
`disabled = loading`. -/
def uploadResumeFileEnabled (s : AppState) : Bool :=
  s.step == 2 && !s.loading

/-- "Analyze GitHub" button: rendered in the step-3 block (which itself
requires `evaluation` to be present), with `disabled = !githubUrl or
loading`. -/
def analyzeEnabled (s : AppState) : Bool :=
  s.step == 3 && s.evaluation.isSome && !(s.githubUrl == "") && !s.loading

/-- "Skip Level 2" button: rendered in the step-3 block (requires
`evaluation` present); never disabled. -/
def skipEnabled (s : AppState) : Bool :=
  s.step == 3 && s.evaluation.isSome

/-- "Generate Final Verdict" button: rendered in the step-4 block
(guarded by `step === 4 && evaluation`) only when
`githubAnalysis && !finalVerdict`, with `disabled = loading`. -/
def generateVerdictEnabled (s : AppState) : Bool :=
  s.step == 4 && s.evaluation.isSome && s.githubAnalysis.isSome &&
    s.finalVerdict.isNone && !s.loading

/-- Where a "Download PDF" button is rendered: the step-4 results block
(guarded by `step === 4 && evaluation`) and the step-5 verdict block
(guarded by `step === 5 && finalVerdict`).  The step-3 block renders no
download control. -/
def downloadAvailable (s : AppState) : Bool :=
  (s.step == 4 && s.evaluation.isSome) || (s.step == 5 && s.finalVerdict.isSome)

/-- One user-visible event: a click on a workflow control (with the
outcome of the network call it triggers, when it triggers one) or an
edit of an input field. -/
inductive Act where
  | setJd (t : String)
  | jdOk (r : String)
  | jdErr (e : String)
  | jdFileOk (r : String)
  | jdFileErr (e : String)
  | setResume (t : String)
  | backToJD
  | evalOk (d : EvalData)
  | evalErr (e : String)
  | evalFileOk (d : EvalData)
  | evalFileErr (e : String)
  | setGithub (t : String)
  | backToResume
  | skipLevel2
  | ghOk (d : GithubData)
  | ghErr (e : String)
  | verdictOk (v : VerdictData)
  | verdictErr (e : String)
  | viewVerdict
  | pdfOk
  | pdfErr (e : String)
  | another
  | startOverClick
  | backToResults
  | setThresholdsTo (t : Thresholds)
deriving DecidableEq

/-- Fire an event against a state: `some` of the settled state when the
corresponding control is rendered and enabled there, `none` otherwise.
Guards are read off the JSX render conditions and `disabled`
attributes. -/
def applyAct (a : Act) (s : AppState) : Option AppState :=
  match a with
  | Act.setJd t => if s.step == 1 then some { s with jdText := t } else none
  | Act.jdOk r => if processTextEnabled s then some (uploadJD s (Except.ok r)) else none
  | Act.jdErr e => if processTextEnabled s then some (uploadJD s (Except.error e)) else none
  | Act.jdFileOk r => if uploadJDFileEnabled s then some (uploadJDFile s (Except.ok r)) else none
  | Act.jdFileErr e => if uploadJDFileEnabled s then some (uploadJDFile s (Except.error e)) else none
  | Act.setResume t => if s.step == 2 then some { s with resumeText := t } else none
  | Act.backToJD => if s.step == 2 then some { s with step := 1 } else none
  | Act.evalOk d => if evaluateTextEnabled s then some (evaluateResume s (Except.ok d)) else none
  | Act.evalErr e => if evaluateTextEnabled s then some (evaluateResume s (Except.error e)) else none
  | Act.evalFileOk d =>
      if uploadResumeFileEnabled s then some (evaluateResumeFile s (Except.ok d)) else none
  | Act.evalFileErr e =>
      if uploadResumeFileEnabled s then some (evaluateResumeFile s (Except.error e)) else none
  | Act.setGithub t =>
      if s.step == 3 && s.evaluation.isSome then some { s with githubUrl := t } else none
  | Act.backToResume =>
      if s.step == 3 && s.evaluation.isSome then some { s with step := 2 } else none
  | Act.skipLevel2 => if skipEnabled s then some { s with step := 4 } else none
  | Act.ghOk d => if analyzeEnabled s then some (analyzeGitHub s (Except.ok d)) else none
  | Act.ghErr e => if analyzeEnabled s then some (analyzeGitHub s (Except.error e)) else none
  | Act.verdictOk v =>
      if generateVerdictEnabled s then some (generateFinalVerdict s (Except.ok v)) else none
  | Act.verdictErr e =>
      if generateVerdictEnabled s then some (generateFinalVerdict s (Except.error e)) else none
  | Act.viewVerdict =>
      if s.step == 4 && s.evaluation.isSome && s.finalVerdict.isSome then
        some { s with step := 5 }
      else none
  | Act.pdfOk => if downloadAvailable s then some (downloadPDF s (Except.ok ())) else none
  | Act.pdfErr e => if downloadAvailable s then some (downloadPDF s (Except.error e)) else none
  | Act.another => if downloadAvailable s then some (evaluateAnotherCandidate s) else none
  | Act.startOverClick => if downloadAvailable s then some (startOver s) else none
  | Act.backToResults =>
      if s.step == 5 && s.finalVerdict.isSome then some { s with step := 4 } else none
  | Act.setThresholdsTo t => some { s with thresholds := t }

/-- Run a sequence of events; fails if some event is not fireable. -/
def runActs (acts : List Act) (s : AppState) : Option AppState :=
  match acts with
  | [] => some s
  | a :: rest =>
      match applyAct a s with
      | some s1 => runActs rest s1
      | none => none

/-- An event carries a non-empty rubric payload: true for every event
except a rubric-generation success, where it requires the returned
rubric text to be non-empty. -/
def rubricNonempty : Act → Bool
  | Act.jdOk r => !(r == "")
  | Act.jdFileOk r => !(r == "")
  | _ => true

/-- A sample settled resume evaluation: score 5 against threshold 7,
`passed = false`, no auto-detected profile. -/
def exEval : EvalData :=
  { score := 5
    max_score := 10
    passed := false
    threshold := 7
    evaluation := "resume narrative"
    github_url := none }

/-- A sample settled GitHub analysis. -/
def exGithub : GithubData :=
  { github_url := "octocat"
    score := 8
    max_score := 10
    passed := true
    threshold := 6
    analysis := "github narrative" }

/-- A sample settled verdict payload. -/
def exVerdict : VerdictData :=
  { decision := "NO_HIRE"
    confidence := "MEDIUM"
    composite_score := 6
    level_1_score := 5
    level_2_score := 8
    level_3_score := none
    verdict_text := "verdict narrative" }

/-- A concrete event trace: type a JD, process it successfully, type a
resume, evaluate it successfully. -/
def acts3 : List Act :=
  [Act.setJd "jd", Act.jdOk "rubric text", Act.setResume "resume", Act.evalOk exEval]

/-- The state `acts3` reaches: step 3 with the resume artifact stored. -/
def ex3 : AppState :=
  { step := 3
    jdText := "jd"
    rubric := "rubric text"
    resumeText := "resume"
    evaluation := some exEval
    githubUrl := ""
    githubAnalysis := none
    finalVerdict := none
    loading := false
    error := ""
    thresholds := { level_1 := 7, level_2 := 6, level_3 := 8 } }

/-- The trace `acts3` followed by a click on "Skip Level 2". -/
def acts4 : List Act := acts3 ++ [Act.skipLevel2]

/-- The state `acts4` reaches: the results view with the resume
artifact present but no GitHub analysis and no verdict. -/
def ex4 : AppState := { ex3 with step := 4 }

/-- `ex4` after a successful GitHub analysis would have stored
`exGithub`; used to exercise the verdict-generation guard. -/
def ex4g : AppState := { ex4 with githubAnalysis := some exGithub }

/-- The initial state with a request in flight. -/
def exLoading : AppState := { initState with loading := true }

/-- A state where the "Process Text" control is enabled is at step 1. -/
theorem processTextEnabled_step (s : AppState) (h : processTextEnabled s = true) :
    s.step = 1 := by
  simp [processTextEnabled] at h
  exact h.1.1

/-- A state where the JD file-upload control is enabled is at step 1. -/
theorem uploadJDFileEnabled_step (s : AppState) (h : uploadJDFileEnabled s = true) :
    s.step = 1 := by
  simp [uploadJDFileEnabled] at h
  exact h.1

/-- A state where the "Evaluate Text" control is enabled is at step 2. -/
theorem evaluateTextEnabled_step (s : AppState) (h : evaluateTextEnabled s = true) :
    s.step = 2 := by
  simp [evaluateTextEnabled] at h
  exact h.1.1

/-- A state where the resume file-upload control is enabled is at step 2. -/
theorem uploadResumeFileEnabled_step (s : AppState) (h : uploadResumeFileEnabled s = true) :
    s.step = 2 := by
  simp [uploadResumeFileEnabled] at h
  exact h.1

/-- A state where the "Analyze GitHub" control is enabled is at step 3. -/
theorem analyzeEnabled_step (s : AppState) (h : analyzeEnabled s = true) :
    s.step = 3 := by
  simp [analyzeEnabled] at h
  exact h.1.1.1

/-- A state where the "Skip Level 2" control is rendered is at step 3. -/
theorem skipEnabled_step (s : AppState) (h : skipEnabled s = true) :
    s.step = 3 := by
  simp [skipEnabled] at h
  exact h.1

/-- A state where the "Generate Final Verdict" control is enabled is at
step 4. -/
theorem generateVerdictEnabled_step (s : AppState) (h : generateVerdictEnabled s = true) :
    s.step = 4 := by
  simp [generateVerdictEnabled] at h
  exact h.1.1.1.1

/-- A state where a "Download PDF" control is rendered is at step 4 or
step 5. -/
theorem downloadAvailable_step (s : AppState) (h : downloadAvailable s = true) :
    s.step = 4 ∨ s.step = 5 := by
  simp [downloadAvailable] at h
  rcases h with ⟨h4, _⟩ | ⟨h5, _⟩
  · exact Or.inl h4
  · exact Or.inr h5

/-- Any fireable event either keeps the step, moves it backwards, or
advances it by exactly one: no control ever skips a step forward. -/
theorem applyAct_step_order (a : Act) (s s' : AppState) (h : applyAct a s = some s') :
    s'.step ≤ s.step ∨ s'.step = s.step + 1 := by
  cases a with
  | setJd t =>
    simp only [applyAct] at h
    split at h
    · simp only [Option.some.injEq] at h
      subst h
      exact Or.inl (Nat.le_refl _)
    · exact Option.noConfusion h
  | jdOk r =>
    simp only [applyAct] at h
    split at h
    · rename_i hg
      simp only [Option.some.injEq] at h
      subst h
      have h1 := processTextEnabled_step s hg
      right
      show 2 = s.step + 1
      omega
    · exact Option.noConfusion h
  | jdErr e =>
    simp only [applyAct] at h
    split at h
    · simp only [Option.some.injEq] at h
      subst h
      exact Or.inl (Nat.le_refl _)
    · exact Option.noConfusion h
  | jdFileOk r =>
    simp only [applyAct] at h
    split at h
    · rename_i hg
      simp only [Option.some.injEq] at h
      subst h
      have h1 := uploadJDFileEnabled_step s hg
      right
      show 2 = s.step + 1
      omega
    · exact Option.noConfusion h
  | jdFileErr e =>
    simp only [applyAct] at h
    split at h
    · simp only [Option.some.injEq] at h
      subst h
      exact Or.inl (Nat.le_refl _)
    · exact Option.noConfusion h
  | setResume t =>
    simp only [applyAct] at h
    split at h
    · simp only [Option.some.injEq] at h
      subst h
      exact Or.inl (Nat.le_refl _)
    · exact Option.noConfusion h
  | backToJD =>
    simp only [applyAct] at h
    split at h
    · rename_i hg
      simp only [Option.some.injEq] at h
      subst h
      have h1 : s.step = 2 := by simpa using hg
      left
      show 1 ≤ s.step
      omega
    · exact Option.noConfusion h
  | evalOk d =>
    simp only [applyAct] at h
    split at h
    · rename_i hg
      simp only [Option.some.injEq] at h
      subst h
      have h1 := evaluateTextEnabled_step s hg
      right
      show 3 = s.step + 1
      omega
    · exact Option.noConfusion h
  | evalErr e =>
    simp only [applyAct] at h
    split at h
    · simp only [Option.some.injEq] at h
      subst h
      exact Or.inl (Nat.le_refl _)
    · exact Option.noConfusion h
  | evalFileOk d =>
    simp only [applyAct] at h
    split at h
    · rename_i hg
      simp only [Option.some.injEq] at h
      subst h
      have h1 := uploadResumeFileEnabled_step s hg
      right
      show 3 = s.step + 1
      omega
    · exact Option.noConfusion h
  | evalFileErr e =>
    simp only [applyAct] at h
    split at h
    · simp only [Option.some.injEq] at h
      subst h
      exact Or.inl (Nat.le_refl _)
    · exact Option.noConfusion h
  | setGithub t =>
    simp only [applyAct] at h
    split at h
    · simp only [Option.some.injEq] at h
      subst h
      exact Or.inl (Nat.le_refl _)
    · exact Option.noConfusion h
  | backToResume =>
    simp only [applyAct] at h
    split at h
    · rename_i hg
      simp only [Option.some.injEq] at h
      subst h
      have h1 : s.step = 3 := by
        simp at hg
        exact hg.1
      left
      show 2 ≤ s.step
      omega
    · exact Option.noConfusion h
  | skipLevel2 =>
    simp only [applyAct] at h
    split at h
    · rename_i hg
      simp only [Option.some.injEq] at h
      subst h
      have h1 := skipEnabled_step s hg
      right
      show 4 = s.step + 1
      omega
    · exact Option.noConfusion h
  | ghOk d =>
    simp only [applyAct] at h
    split at h
    · rename_i hg
      simp only [Option.some.injEq] at h
      subst h
      have h1 := analyzeEnabled_step s hg
      right
      show 4 = s.step + 1
      omega
    · exact Option.noConfusion h
  | ghErr e =>
    simp only [applyAct] at h
    split at h
    · simp only [Option.some.injEq] at h
      subst h
      exact Or.inl (Nat.le_refl _)
    · exact Option.noConfusion h
  | verdictOk v =>
    simp only [applyAct] at h
    split at h
    · rename_i hg
      simp only [Option.some.injEq] at h
      subst h
      have h1 := generateVerdictEnabled_step s hg
      right
      show 5 = s.step + 1
      omega
    · exact Option.noConfusion h
  | verdictErr e =>
    simp only [applyAct] at h
    split at h
    · simp only [Option.some.injEq] at h
      subst h
      exact Or.inl (Nat.le_refl _)
    · exact Option.noConfusion h
  | viewVerdict =>
    simp only [applyAct] at h
    split at h
    · rename_i hg
      simp only [Option.some.injEq] at h
      subst h
      have h1 : s.step = 4 := by
        simp at hg
        exact hg.1.1
      right
      show 5 = s.step + 1
      omega
    · exact Option.noConfusion h
  | pdfOk =>
    simp only [applyAct] at h
    split at h
    · simp only [Option.some.injEq] at h
      subst h
      exact Or.inl (Nat.le_refl _)
    · exact Option.noConfusion h
  | pdfErr e =>
    simp only [applyAct] at h
    split at h
    · simp only [Option.some.injEq] at h
      subst h
      exact Or.inl (Nat.le_refl _)
    · exact Option.noConfusion h
  | another =>
    simp only [applyAct] at h
    split at h
    · rename_i hg
      simp only [Option.some.injEq] at h
      subst h
      have h1 := downloadAvailable_step s hg
      left
      show 2 ≤ s.step
      rcases h1 with h1 | h1 <;> omega
    · exact Option.noConfusion h
  | startOverClick =>
    simp only [applyAct] at h
    split at h
    · rename_i hg
      simp only [Option.some.injEq] at h
      subst h
      have h1 := downloadAvailable_step s hg
      left
      show 1 ≤ s.step
      rcases h1 with h1 | h1 <;> omega
    · exact Option.noConfusion h
  | backToResults =>
    simp only [applyAct] at h
    split at h
    · rename_i hg
      simp only [Option.some.injEq] at h
      subst h
      have h1 : s.step = 5 := by
        simp at hg
        exact hg.1
      left
      show 4 ≤ s.step
      omega
    · exact Option.noConfusion h
  | setThresholdsTo t =>
    simp only [applyAct, Option.some.injEq] at h
    subst h
    exact Or.inl (Nat.le_refl _)

/-- One fireable event preserves the invariant "once past step 1, the
stored rubric is non-empty", provided a rubric-generation success
carries non-empty rubric text. -/
theorem applyAct_rubric_inv (a : Act) (s s' : AppState) (h : applyAct a s = some s')
    (ha : rubricNonempty a = true) (hs : 2 ≤ s.step → s.rubric ≠ "") :
    2 ≤ s'.step → s'.rubric ≠ "" := by
  cases a with
  | setJd t =>
    simp only [applyAct] at h
    split at h
    · simp only [Option.some.injEq] at h
      subst h
      exact hs
    · exact Option.noConfusion h
  | jdOk r =>
    simp only [applyAct] at h
    split at h
    · simp only [Option.some.injEq] at h
      subst h
      intro _
      show r ≠ ""
      simpa [rubricNonempty] using ha
    · exact Option.noConfusion h
  | jdErr e =>
    simp only [applyAct] at h
    split at h
    · simp only [Option.some.injEq] at h
      subst h
      exact hs
    · exact Option.noConfusion h
  | jdFileOk r =>
    simp only [applyAct] at h
    split at h
    · simp only [Option.some.injEq] at h
      subst h
      intro _
      show r ≠ ""
      simpa [rubricNonempty] using ha
    · exact Option.noConfusion h
  | jdFileErr e =>
    simp only [applyAct] at h
    split at h
    · simp only [Option.some.injEq] at h
      subst h
      exact hs
    · exact Option.noConfusion h
  | setResume t =>
    simp only [applyAct] at h
    split at h
    · simp only [Option.some.injEq] at h
      subst h
      exact hs
    · exact Option.noConfusion h
  | backToJD =>
    simp only [applyAct] at h
    split at h
    · simp only [Option.some.injEq] at h
      subst h
      intro h2
      have h3 : (2 : Nat) ≤ 1 := h2
      omega
    · exact Option.noConfusion h
  | evalOk d =>
    simp only [applyAct] at h
    split at h
    · rename_i hg
      simp only [Option.some.injEq] at h
      subst h
      intro _
      show s.rubric ≠ ""
      have h1 := evaluateTextEnabled_step s hg
      exact hs (by omega)
    · exact Option.noConfusion h
  | evalErr e =>
    simp only [applyAct] at h
    split at h
    · simp only [Option.some.injEq] at h
      subst h
      exact hs
    · exact Option.noConfusion h
  | evalFileOk d =>
    simp only [applyAct] at h
    split at h
    · rename_i hg
      simp only [Option.some.injEq] at h
      subst h
      intro _
      show s.rubric ≠ ""
      have h1 := uploadResumeFileEnabled_step s hg
      exact hs (by omega)
    · exact Option.noConfusion h
  | evalFileErr e =>
    simp only [applyAct] at h
    split at h
    · simp only [Option.some.injEq] at h
      subst h
      exact hs
    · exact Option.noConfusion h
  | setGithub t =>
    simp only [applyAct] at h
    split at h
    · simp only [Option.some.injEq] at h
      subst h
      exact hs
    · exact Option.noConfusion h
  | backToResume =>
    simp only [applyAct] at h
    split at h
    · rename_i hg
      simp only [Option.some.injEq] at h
      subst h
      intro _
      show s.rubric ≠ ""
      have h1 : s.step = 3 := by
        simp at hg
        exact hg.1
      exact hs (by omega)
    · exact Option.noConfusion h
  | skipLevel2 =>
    simp only [applyAct] at h
    split at h
    · rename_i hg
      simp only [Option.some.injEq] at h
      subst h
      intro _
      show s.rubric ≠ ""
      have h1 := skipEnabled_step s hg
      exact hs (by omega)
    · exact Option.noConfusion h
  | ghOk d =>
    simp only [applyAct] at h
    split at h
    · rename_i hg
      simp only [Option.some.injEq] at h
      subst h
      intro _
      show s.rubric ≠ ""
      have h1 := analyzeEnabled_step s hg
      exact hs (by omega)
    · exact Option.noConfusion h
  | ghErr e =>
    simp only [applyAct] at h
    split at h
    · simp only [Option.some.injEq] at h
      subst h
      exact hs
    · exact Option.noConfusion h
  | verdictOk v =>
    simp only [applyAct] at h
    split at h
    · rename_i hg
      simp only [Option.some.injEq] at h
      subst h
      intro _
      show s.rubric ≠ ""
      have h1 := generateVerdictEnabled_step s hg
      exact hs (by omega)
    · exact Option.noConfusion h
  | verdictErr e =>
    simp only [applyAct] at h
    split at h
    · simp only [Option.some.injEq] at h
      subst h
      exact hs
    · exact Option.noConfusion h
  | viewVerdict =>
    simp only [applyAct] at h
    split at h
    · rename_i hg
      simp only [Option.some.injEq] at h
      subst h
      intro _
      show s.rubric ≠ ""
      have h1 : s.step = 4 := by
        simp at hg
        exact hg.1.1
      exact hs (by omega)
    · exact Option.noConfusion h
  | pdfOk =>
    simp only [applyAct] at h
    split at h
    · simp only [Option.some.injEq] at h
      subst h
      exact hs
    · exact Option.noConfusion h
  | pdfErr e =>
    simp only [applyAct] at h
    split at h
    · simp only [Option.some.injEq] at h
      subst h
      exact hs
    · exact Option.noConfusion h
  | another =>
    simp only [applyAct] at h
    split at h
    · rename_i hg
      simp only [Option.some.injEq] at h
      subst h
      intro _
      show s.rubric ≠ ""
      have h1 := downloadAvailable_step s hg
      exact hs (by rcases h1 with h1 | h1 <;> omega)
    · exact Option.noConfusion h
  | startOverClick =>
    simp only [applyAct] at h
    split at h
    · simp only [Option.some.injEq] at h
      subst h
      intro h2
      have h3 : (2 : Nat) ≤ 1 := h2
      omega
    · exact Option.noConfusion h
  | backToResults =>
    simp only [applyAct] at h
    split at h
    · rename_i hg
      simp only [Option.some.injEq] at h
      subst h
      intro _
      show s.rubric ≠ ""
      have h1 : s.step = 5 := by
        simp at hg
        exact hg.1
      exact hs (by omega)
    · exact Option.noConfusion h
  | setThresholdsTo t =>
    simp only [applyAct, Option.some.injEq] at h
    subst h
    exact hs

/-- The rubric-presence invariant carries along any fireable trace whose
rubric-generation successes return non-empty rubric text. -/
theorem runActs_rubric_inv (acts : List Act) (s s' : AppState)
    (h : runActs acts s = some s') (ha : ∀ a ∈ acts, rubricNonempty a = true)
    (hs : 2 ≤ s.step → s.rubric ≠ "") : 2 ≤ s'.step → s'.rubric ≠ "" := by
  induction acts generalizing s with
  | nil =>
    simp only [runActs, Option.some.injEq] at h
    subst h
    exact hs
  | cons a rest ih =>
    simp only [runActs] at h
    cases hap : applyAct a s with
    | none => rw [hap] at h; exact Option.noConfusion h
    | some s1 =>
      rw [hap] at h
      exact ih s1 h (fun b hb => ha b (List.mem_cons_of_mem a hb))
        (applyAct_rubric_inv a s s1 hap (ha a (List.mem_cons_self a rest)) hs)

/-- C1 (counterexample): in the state reached by evaluating a resume and
then clicking "Skip Level 2" — the resume artifact is present and the
profile analysis was explicitly skipped — the "Generate Final Verdict"
control is not rendered (its guard `githubAnalysis && !finalVerdict`
fails) and the verdict-generation event is not fireable, contradicting
the claim that verdict generation is available on the skip path. -/
theorem verdict_requires_profile_C1_cex :
    runActs acts4 initState = some ex4 ∧
    ex4.evaluation.isSome = true ∧
    ex4.githubAnalysis = none ∧
    ex4.finalVerdict = none ∧
    generateVerdictEnabled ex4 = false ∧
    applyAct (Act.verdictOk exVerdict) ex4 = none :=
  ⟨rfl, rfl, rfl, rfl, rfl, rfl⟩

/-- C1 (amended): in the results view with the resume artifact present,
verdict generation can be invoked only when a profile analysis is
present: with no profile analysis the verdict event is not fireable,
while with one present (and no verdict yet) it is fireable and stores
the produced verdict, moving to the verdict view. -/
theorem verdict_requires_profile_C1 (s : AppState) (v : VerdictData)
    (h4 : s.step = 4) (he : s.evaluation.isSome = true) (hl : s.loading = false) :
    (s.githubAnalysis = none → applyAct (Act.verdictOk v) s = none) ∧
    (s.githubAnalysis.isSome = true → s.finalVerdict = none →
      applyAct (Act.verdictOk v) s = some (generateFinalVerdict s (Except.ok v))) ∧
    (generateFinalVerdict s (Except.ok v)).finalVerdict = some v ∧
    (generateFinalVerdict s (Except.ok v)).step = 5 := by
  refine ⟨?_, ?_, rfl, rfl⟩
  · intro hga
    have hg : generateVerdictEnabled s = false := by
      simp [generateVerdictEnabled, hga]
    simp [applyAct, hg]
  · intro hga hfv
    have hg : generateVerdictEnabled s = true := by
      simp [generateVerdictEnabled, h4, he, hl, hga, hfv]
    simp [applyAct, hg]

/-- C1 (witness): at the concrete results-view state with a stored
GitHub analysis, verdict generation fires and stores the verdict. -/
theorem verdict_requires_profile_C1_witness :
    applyAct (Act.verdictOk exVerdict) ex4g =
      some (generateFinalVerdict ex4g (Except.ok exVerdict)) ∧
    (generateFinalVerdict ex4g (Except.ok exVerdict)).finalVerdict = some exVerdict :=
  ⟨(verdict_requires_profile_C1 ex4g exVerdict rfl rfl rfl).2.1 rfl rfl,
   (verdict_requires_profile_C1 ex4g exVerdict rfl rfl rfl).2.2.1⟩

/-- C2: every failing stage-transition handler is atomic — on a failed
JD submission + rubric generation (text or file), resume evaluation
(text or file), profile analysis, or verdict generation, the step cursor
and every stored artifact (rubric, evaluation, GitHub analysis, verdict)
are unchanged; in particular a failed rubric generation stores no
partial rubric and leaves the step where it was. -/
theorem failed_transitions_atomic_C2 (s : AppState) (e : String) :
    ((uploadJD s (Except.error e)).step = s.step ∧
      (uploadJD s (Except.error e)).rubric = s.rubric ∧
      (uploadJD s (Except.error e)).evaluation = s.evaluation ∧
      (uploadJD s (Except.error e)).githubAnalysis = s.githubAnalysis ∧
      (uploadJD s (Except.error e)).finalVerdict = s.finalVerdict) ∧
    ((uploadJDFile s (Except.error e)).step = s.step ∧
      (uploadJDFile s (Except.error e)).rubric = s.rubric ∧
      (uploadJDFile s (Except.error e)).evaluation = s.evaluation ∧
      (uploadJDFile s (Except.error e)).githubAnalysis = s.githubAnalysis ∧
      (uploadJDFile s (Except.error e)).finalVerdict = s.finalVerdict) ∧
    ((evaluateResume s (Except.error e)).step = s.step ∧
      (evaluateResume s (Except.error e)).rubric = s.rubric ∧
      (evaluateResume s (Except.error e)).evaluation = s.evaluation ∧
      (evaluateResume s (Except.error e)).githubAnalysis = s.githubAnalysis ∧
      (evaluateResume s (Except.error e)).finalVerdict = s.finalVerdict) ∧
    ((evaluateResumeFile s (Except.error e)).step = s.step ∧
      (evaluateResumeFile s (Except.error e)).rubric = s.rubric ∧
      (evaluateResumeFile s (Except.error e)).evaluation = s.evaluation ∧
      (evaluateResumeFile s (Except.error e)).githubAnalysis = s.githubAnalysis ∧
      (evaluateResumeFile s (Except.error e)).finalVerdict = s.finalVerdict) ∧
    ((analyzeGitHub s (Except.error e)).step = s.step ∧
      (analyzeGitHub s (Except.error e)).rubric = s.rubric ∧
      (analyzeGitHub s (Except.error e)).evaluation = s.evaluation ∧
      (analyzeGitHub s (Except.error e)).githubAnalysis = s.githubAnalysis ∧
      (analyzeGitHub s (Except.error e)).finalVerdict = s.finalVerdict) ∧
    ((generateFinalVerdict s (Except.error e)).step = s.step ∧
      (generateFinalVerdict s (Except.error e)).rubric = s.rubric ∧
      (generateFinalVerdict s (Except.error e)).evaluation = s.evaluation ∧
      (generateFinalVerdict s (Except.error e)).githubAnalysis = s.githubAnalysis ∧
      (generateFinalVerdict s (Except.error e)).finalVerdict = s.finalVerdict) :=
  ⟨⟨rfl, rfl, rfl, rfl, rfl⟩, ⟨rfl, rfl, rfl, rfl, rfl⟩, ⟨rfl, rfl, rfl, rfl, rfl⟩,
   ⟨rfl, rfl, rfl, rfl, rfl⟩, ⟨rfl, rfl, rfl, rfl, rfl⟩, ⟨rfl, rfl, rfl, rfl, rfl⟩⟩

/-- C3: the step cursor advances only through the wizard order — any
fireable event keeps the step, moves it backwards (back-navigation or
reset), or advances it by exactly one, never skipping forward — and no
fireable trace from the initial render whose rubric-generation successes
return non-empty rubric text reaches a step past the JD stage with no
rubric stored. -/
theorem stage_order_C3 :
    (∀ (a : Act) (s s' : AppState), applyAct a s = some s' →
      s'.step ≤ s.step ∨ s'.step = s.step + 1) ∧
    (∀ (acts : List Act) (s : AppState), runActs acts initState = some s →
      (∀ a ∈ acts, rubricNonempty a = true) → 2 ≤ s.step → s.rubric ≠ "") :=
  ⟨applyAct_step_order,
   fun acts s h ha =>
     runActs_rubric_inv acts initState s h ha (fun h2 => absurd h2 (by decide))⟩

/-- C3 (witness): the skip event advances the concrete step-3 state by
exactly one, and the concrete JD-then-resume trace reaches step 3 with a
non-empty rubric stored. -/
theorem stage_order_C3_witness :
    (ex4.step ≤ ex3.step ∨ ex4.step = ex3.step + 1) ∧ ex3.rubric ≠ "" :=
  ⟨stage_order_C3.1 Act.skipLevel2 ex3 ex4 rfl,
   stage_order_C3.2 acts3 ex3 rfl (by decide) (by decide)⟩

/-- C4: a successful resume evaluation (text or file) always stores the
artifact and advances to the GitHub-input step 3, regardless of the
artifact's `passed` flag — a below-threshold resume never halts the
pipeline. -/
theorem resume_eval_always_advances_C4 (s : AppState) (d : EvalData) :
    (evaluateResume s (Except.ok d)).step = 3 ∧
    (evaluateResume s (Except.ok d)).evaluation = some d ∧
    (evaluateResumeFile s (Except.ok d)).step = 3 ∧
    (evaluateResumeFile s (Except.ok d)).evaluation = some d ∧
    (evaluateResume s (Except.ok { d with passed := false })).step = 3 ∧
    (evaluateResume s (Except.ok { d with passed := true })).step = 3 :=
  ⟨rfl, rfl, rfl, rfl, rfl, rfl⟩

/-- C5: a failed GitHub analysis leaves the session at step 3 with all
artifacts unchanged, and from the resulting state the caller can still
skip the profile stage ("Skip Level 2" remains rendered) or retry: the
identifier input is still editable and, for any non-empty corrected
identifier, the "Analyze GitHub" control is enabled again. -/
theorem profile_failure_retry_or_skip_C5 (s : AppState) (e u : String)
    (h3 : s.step = 3) (he : s.evaluation.isSome = true) (hu : u ≠ "") :
    (analyzeGitHub s (Except.error e)).step = 3 ∧
    (analyzeGitHub s (Except.error e)).rubric = s.rubric ∧
    (analyzeGitHub s (Except.error e)).evaluation = s.evaluation ∧
    (analyzeGitHub s (Except.error e)).githubAnalysis = s.githubAnalysis ∧
    (analyzeGitHub s (Except.error e)).finalVerdict = s.finalVerdict ∧
    skipEnabled (analyzeGitHub s (Except.error e)) = true ∧
    applyAct (Act.setGithub u) (analyzeGitHub s (Except.error e)) =
      some { analyzeGitHub s (Except.error e) with githubUrl := u } ∧
    analyzeEnabled { analyzeGitHub s (Except.error e) with githubUrl := u } = true := by
  have hstep : (analyzeGitHub s (Except.error e)).step = s.step := rfl
  refine ⟨by rw [hstep, h3], rfl, rfl, rfl, rfl, ?_, ?_, ?_⟩
  · simp [skipEnabled, analyzeGitHub, h3, he]
  · have hg : ((analyzeGitHub s (Except.error e)).step == 3 &&
        (analyzeGitHub s (Except.error e)).evaluation.isSome) = true := by
      simp [analyzeGitHub, h3, he]
    simp [applyAct, hg]
  · simp [analyzeEnabled, analyzeGitHub, h3, he, hu]

/-- C5 (witness): at the concrete step-3 state, a failed analysis keeps
the step at 3, the skip control stays rendered, and entering "octocat"
re-enables the analysis control. -/
theorem profile_failure_retry_or_skip_C5_witness :
    (analyzeGitHub ex3 (Except.error "boom")).step = 3 ∧
    skipEnabled (analyzeGitHub ex3 (Except.error "boom")) = true ∧
    analyzeEnabled { analyzeGitHub ex3 (Except.error "boom") with githubUrl := "octocat" } = true :=
  ⟨(profile_failure_retry_or_skip_C5 ex3 "boom" "octocat" rfl rfl (by decide)).1,
   (profile_failure_retry_or_skip_C5 ex3 "boom" "octocat" rfl rfl (by decide)).2.2.2.2.2.1,
   (profile_failure_retry_or_skip_C5 ex3 "boom" "octocat" rfl rfl (by decide)).2.2.2.2.2.2.2⟩

/-- C6 (counterexample): the state immediately after a successful resume
evaluation (step 3, resume artifact present, no profile analysis, no
verdict) is reachable, yet no "Download PDF" control is rendered there
and the export event is not fireable — contradicting the claim that
export is available whenever the resume artifact exists. -/
theorem export_read_only_C6_cex :
    runActs acts3 initState = some ex3 ∧
    ex3.step = 3 ∧
    ex3.evaluation.isSome = true ∧
    downloadAvailable ex3 = false ∧
    applyAct Act.pdfOk ex3 = none :=
  ⟨rfl, rfl, rfl, rfl, rfl⟩

/-- C6 (amended): export is a read-only projection — it never changes the
step or any stored field, whatever its outcome — and it is available in
the results view (step 4 with the resume artifact, including the skip
path before any profile analysis or verdict) and the verdict view, but
not in the GitHub-input step immediately after resume evaluation. -/
theorem export_read_only_C6 (s : AppState) (r : Except String Unit) :
    ((s.step = 4 ∧ s.evaluation.isSome = true) ∨
        (s.step = 5 ∧ s.finalVerdict.isSome = true) →
      downloadAvailable s = true) ∧
    (downloadPDF s r).step = s.step ∧
    (downloadPDF s r).jdText = s.jdText ∧
    (downloadPDF s r).rubric = s.rubric ∧
    (downloadPDF s r).resumeText = s.resumeText ∧
    (downloadPDF s r).evaluation = s.evaluation ∧
    (downloadPDF s r).githubUrl = s.githubUrl ∧
    (downloadPDF s r).githubAnalysis = s.githubAnalysis ∧
    (downloadPDF s r).finalVerdict = s.finalVerdict ∧
    (downloadPDF s r).thresholds = s.thresholds := by
  constructor
  · intro hc
    rcases hc with ⟨h4, he⟩ | ⟨h5, hf⟩
    · simp [downloadAvailable, h4, he]
    · simp [downloadAvailable, h5, hf]
  · cases r with
    | ok a => exact ⟨rfl, rfl, rfl, rfl, rfl, rfl, rfl, rfl, rfl⟩
    | error e => exact ⟨rfl, rfl, rfl, rfl, rfl, rfl, rfl, rfl, rfl⟩

/-- C6 (witness): at the concrete skip-path results state the export
control is available, and exporting leaves the step unchanged. -/
theorem export_read_only_C6_witness :
    downloadAvailable ex4 = true ∧ (downloadPDF ex4 (Except.ok ())).step = ex4.step :=
  ⟨(export_read_only_C6 ex4 (Except.ok ())).1 (Or.inl ⟨rfl, rfl⟩),
   (export_read_only_C6 ex4 (Except.ok ())).2.1⟩

/-- C7: the initial threshold configuration is exactly
`level_1 = 7.0`, `level_2 = 6.0`, `level_3 = 8.0`, each within the
0-10 scale. -/
theorem initial_thresholds_C7 :
    initState.thresholds = { level_1 := 7, level_2 := 6, level_3 := 8 } ∧
    0 ≤ initState.thresholds.level_1 ∧ initState.thresholds.level_1 ≤ 10 ∧
    0 ≤ initState.thresholds.level_2 ∧ initState.thresholds.level_2 ≤ 10 ∧
    0 ≤ initState.thresholds.level_3 ∧ initState.thresholds.level_3 ≤ 10 := by
  refine ⟨rfl, ?_, ?_, ?_, ?_, ?_, ?_⟩ <;> norm_num [initState]

/-- C8: after the "Start Over" reset, every workflow field reads as not
present — JD text, rubric, resume text, resume artifact, GitHub
analysis, GitHub identifier and verdict are all empty or `none` — and
the step cursor is back at the initial step 1. -/
theorem reset_clears_session_C8 (s : AppState) :
    (startOver s).step = 1 ∧
    (startOver s).jdText = "" ∧
    (startOver s).rubric = "" ∧
    (startOver s).resumeText = "" ∧
    (startOver s).githubUrl = "" ∧
    (startOver s).evaluation = none ∧
    (startOver s).githubAnalysis = none ∧
    (startOver s).finalVerdict = none :=
  ⟨rfl, rfl, rfl, rfl, rfl, rfl, rfl, rfl⟩

/-- C9: while a stage-transition request is in flight (`loading = true`)
every control that starts a stage-transition request — Process Text, JD
file upload, Evaluate Text, resume file upload, Analyze GitHub, Generate
Final Verdict — is disabled, so a second stage-transition request can
never be started concurrently. -/
theorem serialized_transitions_C9 (s : AppState) (hl : s.loading = true) :
    processTextEnabled s = false ∧
    uploadJDFileEnabled s = false ∧
    evaluateTextEnabled s = false ∧
    uploadResumeFileEnabled s = false ∧
    analyzeEnabled s = false ∧
    generateVerdictEnabled s = false := by
  simp [processTextEnabled, uploadJDFileEnabled, evaluateTextEnabled,
    uploadResumeFileEnabled, analyzeEnabled, generateVerdictEnabled, hl]

/-- C9 (witness): with a request in flight from the initial state, all
six request-starting controls are disabled. -/
theorem serialized_transitions_C9_witness :
    processTextEnabled exLoading = false ∧
    uploadJDFileEnabled exLoading = false ∧
    evaluateTextEnabled exLoading = false ∧
    uploadResumeFileEnabled exLoading = false ∧
    analyzeEnabled exLoading = false ∧
    generateVerdictEnabled exLoading = false :=
  serialized_transitions_C9 exLoading rfl

/-- C10: the "Evaluate Another Candidate" handler keeps the JD text, the
rubric and the thresholds unchanged, resets exactly the
candidate-specific fields (resume text, GitHub identifier, resume
artifact, GitHub analysis, verdict) to empty or `none`, and returns the
step cursor to the resume-input step 2. -/
theorem evaluate_another_frame_C10 (s : AppState) :
    (evaluateAnotherCandidate s).jdText = s.jdText ∧
    (evaluateAnotherCandidate s).rubric = s.rubric ∧
    (evaluateAnotherCandidate s).thresholds = s.thresholds ∧
    (evaluateAnotherCandidate s).step = 2 ∧
    (evaluateAnotherCandidate s).resumeText = "" ∧
    (evaluateAnotherCandidate s).githubUrl = "" ∧
    (evaluateAnotherCandidate s).evaluation = none ∧
    (evaluateAnotherCandidate s).githubAnalysis = none ∧
    (evaluateAnotherCandidate s).finalVerdict = none :=
  ⟨rfl, rfl, rfl, rfl, rfl, rfl, rfl, rfl, rfl⟩
